import Mathlib

/-!
Verification development for the DE-CODED proof-verification service.

The development shallowly embeds the core of the repository:

* `backend/scoring_engine.py` — `ScoringEngine.compute_composite_score`,
  `ScoringEngine.make_decision` (pure signal scoring and verdicts);
* `lib/image_processor.py` — `ImageProcessor.hamming_distance`,
  `is_duplicate`, `chunk_image`, `reconstruct_image`;
* `lib/vlm_verifier.py` — `VLMVerifier.verify_with_vlm` (fallback handling
  around the external assessor);
* `lib/verification_pipeline.py` — `VerificationPipeline.ingest_proof` and
  `verify_proof` (orchestration over an explicit store/collaborator
  environment).

Python floats are modelled as rationals (`ℚ`), byte strings as `List Nat`
with elements below 256, and Python exceptions as an explicit error type
returned through `Except`.  External collaborators (embedding model,
Pinecone store, manipulation CNN, VLM) are oracles carried in an
environment record; everything the repository itself computes is embedded
as executable Lean functions.
-/

namespace DeCoded

/-! ## Scoring engine (`backend/scoring_engine.py`)

The scoring engine consumes a dict of signals.  `verify_proof` always
supplies every key, so the dict is embedded as a structure whose fields are
exactly the keys the engine reads; the `.get` defaults of the source are
noted per field. -/

/-- The signal dict built by `verify_proof` (lines 336–345) and read by
`compute_composite_score` / `make_decision`.  Source `.get` defaults:
`embedding_sim` 0, `ssim` 0, `pixel_diff_norm` 1, `vlm_work_completion_score`
1, `distance_m` 1000 (0 in `make_decision`), `manipulation_probability` 0,
`recycled_flag` false, `worker_present` false. -/
structure Signals where
  embedding_sim : ℚ
  ssim : ℚ
  pixel_diff_norm : ℚ
  vlm_work_completion_score : ℚ
  distance_m : ℚ
  manipulation_probability : ℚ
  recycled_flag : Bool
  worker_present : Bool
deriving Repr, DecidableEq, Inhabited

/-- `ScoringEngine.normalize(value, min_val, max_val)`. -/
def normalize (value min_val max_val : ℚ) : ℚ :=
  if max_val = min_val then 1/2
  else max 0 (min 1 ((value - min_val) / (max_val - min_val)))

/-- The `components` dict returned by `compute_composite_score`. -/
structure ScoreComponents where
  visual_similarity_score : ℚ
  visual_diff_score : ℚ
  vlm_quality_score : ℚ
  spatial_proximity_score : ℚ
  authenticity_score : ℚ
  recycled_penalty : ℚ
  manipulation_penalty : ℚ
deriving Repr, DecidableEq, Inhabited

/-- Return value of `compute_composite_score`. -/
structure ScoreData where
  composite_score : ℚ
  components : ScoreComponents
deriving Repr, DecidableEq, Inhabited

/-- `ScoringEngine.compute_composite_score` (scoring_engine.py lines 47–96),
with the weight table of lines 10–18 inlined as the literal rationals it
holds. -/
def compute_composite_score (signals : Signals) : ScoreData :=
  let embedding_sim := signals.embedding_sim
  let ssim := signals.ssim
  let vlm_score := signals.vlm_work_completion_score / 10
  let distance_m := signals.distance_m
  let manip_prob := signals.manipulation_probability
  let recycled_flag := signals.recycled_flag
  let visual_score := normalize embedding_sim 0 1 * (35/100)
  let diff_score := normalize (1 - ssim) 0 1 * (20/100)
  let quality_score := vlm_score * (20/100)
  let spatial_score := if distance_m ≤ 50 then (10/100 : ℚ) else 0
  let authenticity_score := (1 - manip_prob) * (10/100)
  let recycled_penalty := if recycled_flag then (-(50/100) : ℚ) else 0
  let manipulation_penalty := if manip_prob ≥ 85/100 then (-(30/100) : ℚ) else 0
  let composite_score :=
    visual_score + diff_score + quality_score +
    spatial_score + authenticity_score +
    recycled_penalty + manipulation_penalty
  { composite_score := max 0 (min 1 composite_score)
    components :=
      { visual_similarity_score := visual_score
        visual_diff_score := diff_score
        vlm_quality_score := quality_score
        spatial_proximity_score := spatial_score
        authenticity_score := authenticity_score
        recycled_penalty := recycled_penalty
        manipulation_penalty := manipulation_penalty } }

/-- `ScoringEngine.make_decision` (scoring_engine.py lines 98–122), with the
threshold table of lines 21–24 inlined. -/
def make_decision (composite_score : ℚ) (signals : Signals) : String :=
  if signals.recycled_flag then "REJECTED"
  else if signals.manipulation_probability ≥ 85/100 then "REJECTED"
  else if signals.distance_m > 50 then "REJECTED"
  else if composite_score ≥ 70/100 then "VERIFIED"
  else if composite_score ≥ 45/100 then "QUESTIONABLE"
  else "REJECTED"

/-! ### Claims C1 and C8 -/

/-- C1: `make_decision` returns `"REJECTED"` whenever `recycled_flag` is
true, or `manipulation_probability ≥ 0.85`, or `distance_m > 50`, for every
composite score (in particular scores ≥ 0.70); and when none of the three
critical conditions hold the verdict is decided by the score alone:
`≥ 0.70 → "VERIFIED"`, `≥ 0.45 → "QUESTIONABLE"`, otherwise `"REJECTED"`. -/
theorem make_decision_critical_short_circuit (score : ℚ) (s : Signals) :
    ((s.recycled_flag = true ∨ s.manipulation_probability ≥ 85/100 ∨
        s.distance_m > 50) →
      make_decision score s = "REJECTED") ∧
    ((s.recycled_flag = false ∧ s.manipulation_probability < 85/100 ∧
        s.distance_m ≤ 50) →
      make_decision score s =
        if score ≥ 70/100 then "VERIFIED"
        else if score ≥ 45/100 then "QUESTIONABLE"
        else "REJECTED") := by
  unfold make_decision
  constructor
  · rintro (h | h | h) <;> split_ifs <;> simp_all
  · rintro ⟨h1, h2, h3⟩
    rw [h1]
    rw [if_neg (by simp)]
    rw [if_neg (by exact not_le.mpr h2)]
    rw [if_neg (by exact not_lt.mpr h3)]

/-- Witness for C1 at concrete signals: a recycled proof with composite
score 0.8 is rejected, while the same non-recycled signals are verified. -/
theorem make_decision_critical_short_circuit_witness :
    make_decision (8/10) ⟨0, 0, 0, 0, 0, 0, true, false⟩ = "REJECTED" ∧
    make_decision (8/10) ⟨0, 0, 0, 0, 0, 0, false, false⟩ = "VERIFIED" := by
  constructor
  · exact (make_decision_critical_short_circuit (8/10) _).1 (Or.inl rfl)
  · have h := (make_decision_critical_short_circuit (8/10)
      ⟨0, 0, 0, 0, 0, 0, false, false⟩).2 ⟨rfl, by norm_num, by norm_num⟩
    rw [h, if_pos (by norm_num)]

lemma clamp01_mono {a b : ℚ} (h : a ≤ b) :
    max 0 (min 1 a) ≤ max 0 (min 1 b) :=
  max_le_max le_rfl (min_le_min le_rfl h)

lemma normalize01_mono {a b : ℚ} (h : a ≤ b) :
    normalize a 0 1 ≤ normalize b 0 1 := by
  unfold normalize
  rw [if_neg (by norm_num), if_neg (by norm_num)]
  exact clamp01_mono (by linarith)

/-- C8: with all other signal fields held fixed, the composite score of
`compute_composite_score` is monotonically non-decreasing in
`embedding_sim`, in `1 - ssim`, in `vlm_work_completion_score`, and in
`1 - manipulation_probability` (the last including movements across the
manipulation-penalty threshold 0.85). -/
theorem compute_composite_score_monotone :
    (∀ (s : Signals) (e : ℚ), s.embedding_sim ≤ e →
      (compute_composite_score s).composite_score ≤
        (compute_composite_score { s with embedding_sim := e }).composite_score) ∧
    (∀ (s : Signals) (v : ℚ), 1 - s.ssim ≤ 1 - v →
      (compute_composite_score s).composite_score ≤
        (compute_composite_score { s with ssim := v }).composite_score) ∧
    (∀ (s : Signals) (q : ℚ), s.vlm_work_completion_score ≤ q →
      (compute_composite_score s).composite_score ≤
        (compute_composite_score { s with vlm_work_completion_score := q }).composite_score) ∧
    (∀ (s : Signals) (m : ℚ),
        1 - s.manipulation_probability ≤ 1 - m →
      (compute_composite_score s).composite_score ≤
        (compute_composite_score { s with manipulation_probability := m }).composite_score) := by
  refine ⟨?_, ?_, ?_, ?_⟩
  · intro s e h
    unfold compute_composite_score
    apply clamp01_mono
    have := normalize01_mono h
    simp only
    nlinarith [this]
  · intro s v h
    unfold compute_composite_score
    apply clamp01_mono
    have := normalize01_mono (show 1 - s.ssim ≤ 1 - v from h)
    simp only
    nlinarith [this]
  · intro s q h
    unfold compute_composite_score
    apply clamp01_mono
    simp only
    nlinarith [h]
  · intro s m h
    unfold compute_composite_score
    apply clamp01_mono
    have hm : m ≤ s.manipulation_probability := by linarith
    simp only
    have hpen :
        (if s.manipulation_probability ≥ 85/100 then (-(30/100) : ℚ) else 0) ≤
        (if m ≥ 85/100 then (-(30/100) : ℚ) else 0) := by
      split_ifs with h1 h2 <;> try linarith
    have hauth : (1 - s.manipulation_probability) * (10/100 : ℚ) ≤
        (1 - m) * (10/100) := by nlinarith
    linarith

/-- Witness for C8 at concrete signals, including a pair straddling the
manipulation-penalty threshold (0.9 versus 0.2). -/
theorem compute_composite_score_monotone_witness :
    (compute_composite_score ⟨1/2, 1/2, 0, 5, 10, 9/10, false, false⟩).composite_score ≤
      (compute_composite_score ⟨1/2, 1/2, 0, 5, 10, 2/10, false, false⟩).composite_score ∧
    (compute_composite_score ⟨1/2, 1/2, 0, 5, 10, 2/10, false, false⟩).composite_score ≤
      (compute_composite_score ⟨3/4, 1/2, 0, 5, 10, 2/10, false, false⟩).composite_score := by
  constructor
  · exact compute_composite_score_monotone.2.2.2
      ⟨1/2, 1/2, 0, 5, 10, 9/10, false, false⟩ (2/10) (by norm_num)
  · exact compute_composite_score_monotone.1
      ⟨1/2, 1/2, 0, 5, 10, 2/10, false, false⟩ (3/4) (by norm_num)

/-! ## Duplicate detector (`lib/image_processor.py`)

`compute_phash` returns `str(imagehash.phash(img))` — a 16-hex-character
string for the 64-bit default — or `""` when the image cannot be read.
`hamming_distance` parses both strings with `imagehash.hex_to_hash` and
subtracts the hashes; any exception (unparseable hex, length whose bit
count is not a perfect square, or a bit-size mismatch between the two
hashes) is caught by the bare `except` and yields the sentinel 100. -/

/-- Value of a single hexadecimal digit, or `none` for a non-hex
character. -/
def hexVal (c : Char) : Option Nat :=
  if '0' ≤ c ∧ c ≤ '9' then some (c.toNat - '0'.toNat)
  else if 'a' ≤ c ∧ c ≤ 'f' then some (c.toNat - 'a'.toNat + 10)
  else if 'A' ≤ c ∧ c ≤ 'F' then some (c.toNat - 'A'.toNat + 10)
  else none

/-- Accumulating hex parse. -/
def parseHexAux : List Char → Nat → Option Nat
  | [], acc => some acc
  | c :: cs, acc =>
    match hexVal c with
    | some v => parseHexAux cs (acc * 16 + v)
    | none => none

/-- Python `int(s, 16)`: fails on the empty string and on non-hex
characters.  (Python additionally tolerates surrounding whitespace, a sign,
an `0x` prefix and digit-group underscores; such decorations never occur in
perceptual-hash strings and are not modelled.) -/
def int_base16 (s : List Char) : Option Nat :=
  if s.isEmpty then none else parseHexAux s 0

/-- Fuelled floor square root (kernel-reducible). -/
def isqrtAux (n : Nat) : Nat → Nat → Nat
  | 0, k => k
  | fuel + 1, k => if (k + 1) * (k + 1) ≤ n then isqrtAux n fuel (k + 1) else k

/-- Floor square root, `int(numpy.sqrt(n))` for the exact-valued inputs at
hand. -/
def isqrt (n : Nat) : Nat := isqrtAux n n 0

/-- `imagehash.hex_to_hash`: the hash bit count is `4 * len(hexstr)` and
must be a perfect square (`hash_size = int(sqrt(len*4))`,
`assert hash_size**2 == len*4`); returns the parsed value together with its
bit count. -/
def hex_to_hash (s : List Char) : Option (Nat × Nat) :=
  let bits := 4 * s.length
  if isqrt bits * isqrt bits = bits then
    (int_base16 s).map (fun v => (v, bits))
  else none

/-- Fuelled bit-population count (`count_nonzero` of the bit arrays'
pointwise difference in `imagehash.ImageHash.__sub__`). -/
def popcountAux : Nat → Nat → Nat
  | 0, _ => 0
  | fuel + 1, n => if n = 0 then 0 else n % 2 + popcountAux fuel (n / 2)

/-- Number of 1-bits of `n` (fuel `n` always suffices). -/
def popcount (n : Nat) : Nat := popcountAux n n

/-- `ImageProcessor.hamming_distance` (image_processor.py lines 24–31):
parse both strings with `hex_to_hash`, subtract the hashes (bit-wise
Hamming distance, defined only for equal bit sizes), and return the
sentinel 100 whenever anything raises. -/
def hamming_distance (hash1 hash2 : List Char) : Nat :=
  match hex_to_hash hash1, hex_to_hash hash2 with
  | some (a, s1), some (b, s2) =>
    if s1 = s2 then popcount (Nat.xor a b) else 100
  | _, _ => 100

/-- `ImageProcessor.is_duplicate` (image_processor.py lines 33–38): the
similarity `1 - distance/64` (`max_distance = 64` is hard-coded) is at or
above the threshold.  Default threshold: 0.90. -/
def is_duplicate (hash1 hash2 : List Char) (threshold : ℚ := 9/10) : Bool :=
  let distance := hamming_distance hash1 hash2
  let similarity : ℚ := 1 - (distance : ℚ) / 64
  similarity ≥ threshold

/-! ### Claims C3 and C10 -/

lemma is_duplicate_eq (hash1 hash2 : List Char) (t : ℚ) :
    is_duplicate hash1 hash2 t =
      decide (1 - ((hamming_distance hash1 hash2 : ℚ)) / 64 ≥ t) := rfl

/-- C3: for 64-bit fingerprint strings, `is_duplicate` holds exactly when
`1 - hamming_distance/64 ≥ threshold`; at the default threshold 0.90,
fingerprints at Hamming distance 6 are duplicates and at distance 7 are
not. -/
theorem is_duplicate_similarity_spec :
    (∀ (h1 h2 : List Char) (t : ℚ) (a b : Nat),
        hex_to_hash h1 = some (a, 64) → hex_to_hash h2 = some (b, 64) →
        (hamming_distance h1 h2 = popcount (Nat.xor a b) ∧
          (is_duplicate h1 h2 t = true ↔
            1 - (hamming_distance h1 h2 : ℚ) / 64 ≥ t))) ∧
    hamming_distance ("0000000000000000".toList) ("000000000000003f".toList) = 6 ∧
    is_duplicate ("0000000000000000".toList) ("000000000000003f".toList) (9/10) = true ∧
    hamming_distance ("0000000000000000".toList) ("000000000000007f".toList) = 7 ∧
    is_duplicate ("0000000000000000".toList) ("000000000000007f".toList) (9/10) = false := by
  have h6 : hamming_distance ("0000000000000000".toList)
      ("000000000000003f".toList) = 6 := by decide
  have h7 : hamming_distance ("0000000000000000".toList)
      ("000000000000007f".toList) = 7 := by decide
  refine ⟨?_, h6, ?_, h7, ?_⟩
  · intro h1 h2 t a b hp1 hp2
    have hd : hamming_distance h1 h2 = popcount (Nat.xor a b) := by
      unfold hamming_distance
      rw [hp1, hp2]
      simp
    refine ⟨hd, ?_⟩
    rw [is_duplicate_eq]
    exact decide_eq_true_iff
  · rw [is_duplicate_eq, h6, decide_eq_true_iff]
    norm_num
  · rw [is_duplicate_eq, h7]
    simp only [decide_eq_false_iff_not]
    norm_num

/-- Witness for C3's universally quantified part at two concrete parsed
64-bit fingerprints. -/
theorem is_duplicate_similarity_spec_witness :
    hamming_distance ("0000000000000000".toList) ("00000000000000ff".toList) =
      popcount (Nat.xor 0 255) ∧
    (is_duplicate ("0000000000000000".toList) ("00000000000000ff".toList) (1/2) = true ↔
      1 - ((hamming_distance ("0000000000000000".toList) ("00000000000000ff".toList)) : ℚ) / 64 ≥ 1/2) :=
  is_duplicate_similarity_spec.1 ("0000000000000000".toList) ("00000000000000ff".toList)
    (1/2) 0 255 (by decide) (by decide)

/-- C10 counterexample: `"abcd"` is not a parseable 64-bit fingerprint (it
parses as a 16-bit hash), yet `hamming_distance "abcd" "abcd" = 0` — not
the sentinel 100 — and `is_duplicate` judges the pair a duplicate at
threshold 0.90 instead of returning `false`. -/
theorem is_duplicate_short_hash_counterexample :
    hex_to_hash ("abcd".toList) = some (43981, 16) ∧
    hamming_distance ("abcd".toList) ("abcd".toList) = 0 ∧
    is_duplicate ("abcd".toList) ("abcd".toList) (9/10) = true := by
  have h0 : hamming_distance ("abcd".toList) ("abcd".toList) = 0 := by decide
  refine ⟨by decide, h0, ?_⟩
  rw [is_duplicate_eq, h0, decide_eq_true_iff]
  norm_num

/-- C10 (amended): whenever either argument fails `hex_to_hash` parsing
altogether, or the two arguments parse to hashes of different bit sizes,
`hamming_distance` returns the sentinel 100 and `is_duplicate` returns
`false` for every threshold ≥ 0; in particular the empty string that
`compute_phash` yields for an unreadable image never parses, so such a
proof is never flagged as a duplicate. -/
theorem hamming_distance_error_sentinel :
    (∀ (h1 h2 : List Char) (t : ℚ),
        (hex_to_hash h1 = none ∨ hex_to_hash h2 = none ∨
          (∀ a s1 b s2, hex_to_hash h1 = some (a, s1) →
            hex_to_hash h2 = some (b, s2) → s1 ≠ s2)) →
        hamming_distance h1 h2 = 100 ∧
          (0 ≤ t → is_duplicate h1 h2 t = false)) ∧
    hex_to_hash ("".toList) = none := by
  refine ⟨?_, by decide⟩
  intro h1 h2 t hbad
  have hd : hamming_distance h1 h2 = 100 := by
    unfold hamming_distance
    rcases hp1 : hex_to_hash h1 with _ | ⟨a, s1⟩ <;>
      rcases hp2 : hex_to_hash h2 with _ | ⟨b, s2⟩ <;> simp
    rcases hbad with hb | hb | hb
    · exact absurd hp1 (by simp [hb])
    · exact absurd hp2 (by simp [hb])
    · intro heq
      exact absurd heq (hb a s1 b s2 hp1 hp2)
  refine ⟨hd, fun ht => ?_⟩
  rw [is_duplicate_eq, hd]
  simp only [decide_eq_false_iff_not]
  intro hge
  norm_num at hge
  linarith

/-- Witness for C10's amended theorem: the empty fingerprint of an
unreadable image against a genuine 64-bit fingerprint. -/
theorem hamming_distance_error_sentinel_witness :
    hamming_distance ("".toList) ("0000000000000000".toList) = 100 ∧
    is_duplicate ("".toList) ("0000000000000000".toList) (9/10) = false := by
  have h := hamming_distance_error_sentinel.1 ("".toList)
    ("0000000000000000".toList) (9/10) (Or.inl (by decide))
  exact ⟨h.1, h.2 (by norm_num)⟩

/-! ## Chunked blob codec (`lib/image_processor.py`)

`chunk_image` splits a byte string into slices of `self.chunk_size` raw
bytes (20 * 1024 in `__init__`) and base64-encodes each slice;
`reconstruct_image` sorts a chunk list by `index` and concatenates the
decoded payloads.  Bytes are modelled as naturals below 256; Python's
`base64` codec is embedded as the standard RFC 4648 encoding. -/

/-- The base64 alphabet of RFC 4648, as used by `base64.b64encode`. -/
def base64Chars : List Char :=
  "ABCDEFGHIJKLMNOPQRSTUVWXYZabcdefghijklmnopqrstuvwxyz0123456789+/".toList

/-- Character for a sextet value (< 64). -/
def encodeSextet (n : Nat) : Char := base64Chars.getD n '='

/-- Sextet value of an alphabet character. -/
def decodeSextet (c : Char) : Nat := base64Chars.indexOf c

/-- Python `base64.b64encode`: three bytes become four alphabet characters;
a trailing group of one or two bytes is padded with `'='`. -/
def b64encode : List Nat → List Char
  | [] => []
  | [a] => [encodeSextet (a / 4), encodeSextet (a % 4 * 16), '=', '=']
  | [a, b] =>
    [encodeSextet (a / 4), encodeSextet (a % 4 * 16 + b / 16),
     encodeSextet (b % 16 * 4), '=']
  | a :: b :: c :: rest =>
    encodeSextet (a / 4) :: encodeSextet (a % 4 * 16 + b / 16) ::
    encodeSextet (b % 16 * 4 + c / 64) :: encodeSextet (c % 64) ::
    b64encode rest

/-- Python `base64.b64decode` on well-padded base64 text: four characters
become three bytes, or fewer in a final `'='`-padded group. -/
def b64decode : List Char → List Nat
  | c1 :: c2 :: c3 :: c4 :: rest =>
    if c3 = '=' then
      [decodeSextet c1 * 4 + decodeSextet c2 / 16]
    else if c4 = '=' then
      [decodeSextet c1 * 4 + decodeSextet c2 / 16,
       decodeSextet c2 % 16 * 16 + decodeSextet c3 / 4]
    else
      (decodeSextet c1 * 4 + decodeSextet c2 / 16) ::
      (decodeSextet c2 % 16 * 16 + decodeSextet c3 / 4) ::
      (decodeSextet c3 % 4 * 64 + decodeSextet c4) :: b64decode rest
  | _ => []

/-- A chunk dict as built by `chunk_image` and consumed by
`reconstruct_image`: 0-based `index` (the pipeline additionally stores
thumbnails at index `-1`, hence `Int`), base64 payload, raw byte count. -/
structure Chunk where
  index : Int
  b64 : List Char
  size : Nat
deriving Repr, DecidableEq

/-- `ImageProcessor.chunk_image` (image_processor.py lines 40–57), with the
instance attribute `self.chunk_size` as an explicit parameter:
`num_chunks = ceil(total/chunk_size)` slices, slice `i` being
`image_bytes[i*chunk_size : min((i+1)*chunk_size, total)]`. -/
def chunk_image (chunk_size : Nat) (image_bytes : List Nat) : List Chunk :=
  let total_size := image_bytes.length
  let num_chunks := (total_size + chunk_size - 1) / chunk_size
  (List.range num_chunks).map (fun i =>
    let chunk := (image_bytes.drop (i * chunk_size)).take chunk_size
    { index := (i : Int), b64 := b64encode chunk, size := chunk.length })

/-- `self.chunk_size` set in `ImageProcessor.__init__` (20 KiB raw). -/
def default_chunk_size : Nat := 20 * 1024

/-- Stable insertion into a list sorted by `index` (before the first entry
with an index at or above the new one). -/
def insertByIndex (c : Chunk) : List Chunk → List Chunk
  | [] => [c]
  | d :: ds => if c.index ≤ d.index then c :: d :: ds else d :: insertByIndex c ds

/-- Python `sorted(chunks, key=lambda x: x['index'])`: a stable sort by
`index`, embedded as stable insertion sort. -/
def sortByIndex : List Chunk → List Chunk
  | [] => []
  | c :: cs => insertByIndex c (sortByIndex cs)

/-- `ImageProcessor.reconstruct_image` (image_processor.py lines 59–69):
sort by index ascending, base64-decode every chunk, concatenate.  The
function is total — no index check of any kind is performed. -/
def reconstruct_image (chunks : List Chunk) : List Nat :=
  ((sortByIndex chunks).map (fun c => b64decode c.b64)).flatten

/-! ### base64 round trip -/

lemma decodeSextet_encodeSextet : ∀ s < 64, decodeSextet (encodeSextet s) = s := by
  decide

lemma encodeSextet_ne_pad : ∀ s < 64, encodeSextet s ≠ '=' := by decide

/-- `b64decode` inverts `b64encode` on genuine byte strings. -/
theorem b64decode_encode : ∀ (l : List Nat), (∀ b ∈ l, b < 256) →
    b64decode (b64encode l) = l
  | [], _ => rfl
  | [a], h => by
    have ha : a < 256 := h a (by simp)
    have e1 := decodeSextet_encodeSextet (a / 4) (by omega)
    have e2 := decodeSextet_encodeSextet (a % 4 * 16) (by omega)
    simp [b64encode, b64decode, e1, e2]
    omega
  | [a, b], h => by
    have ha : a < 256 := h a (by simp)
    have hb : b < 256 := h b (by simp)
    have e1 := decodeSextet_encodeSextet (a / 4) (by omega)
    have e2 := decodeSextet_encodeSextet (a % 4 * 16 + b / 16) (by omega)
    have e3 := decodeSextet_encodeSextet (b % 16 * 4) (by omega)
    have hne : encodeSextet (b % 16 * 4) ≠ '=' := encodeSextet_ne_pad _ (by omega)
    simp [b64encode, b64decode, hne, e1, e2, e3]
    omega
  | a :: b :: c :: rest, h => by
    have ha : a < 256 := h a (by simp)
    have hb : b < 256 := h b (by simp)
    have hc : c < 256 := h c (by simp)
    have ih := b64decode_encode rest (fun x hx => h x (by simp [hx]))
    have e1 := decodeSextet_encodeSextet (a / 4) (by omega)
    have e2 := decodeSextet_encodeSextet (a % 4 * 16 + b / 16) (by omega)
    have e3 := decodeSextet_encodeSextet (b % 16 * 4 + c / 64) (by omega)
    have e4 := decodeSextet_encodeSextet (c % 64) (by omega)
    have hne3 : encodeSextet (b % 16 * 4 + c / 64) ≠ '=' :=
      encodeSextet_ne_pad _ (by omega)
    have hne4 : encodeSextet (c % 64) ≠ '=' := encodeSextet_ne_pad _ (by omega)
    simp [b64encode, b64decode, hne3, hne4, e1, e2, e3, e4, ih]
    omega

/-! ### Claims C2 and C7 -/

lemma sortByIndex_of_pairwise : ∀ {l : List Chunk},
    List.Pairwise (fun a b => a.index ≤ b.index) l → sortByIndex l = l
  | [], _ => rfl
  | c :: cs, h => by
    rw [List.pairwise_cons] at h
    have ih := sortByIndex_of_pairwise h.2
    unfold sortByIndex
    rw [ih]
    cases cs with
    | nil => rfl
    | cons d ds =>
      unfold insertByIndex
      rw [if_pos (h.1 d (by simp))]

lemma flatten_slices (cs : Nat) : ∀ (n : Nat) (l : List Nat),
    ((List.range n).map (fun i => (l.drop (i * cs)).take cs)).flatten =
      l.take (n * cs)
  | 0, l => by simp
  | n + 1, l => by
    rw [List.range_succ_eq_map, List.map_cons, List.map_map]
    have hmap : List.map ((fun i => (l.drop (i * cs)).take cs) ∘ Nat.succ)
        (List.range n) =
        List.map (fun i => ((l.drop cs).drop (i * cs)).take cs)
        (List.range n) := by
      refine List.map_congr_left fun i _ => ?_
      simp only [Function.comp]
      rw [List.drop_drop]
      congr 2
      rw [Nat.succ_mul]
      ring
    rw [hmap]
    simp only [List.flatten_cons, Nat.zero_mul, List.drop_zero]
    rw [flatten_slices cs n (l.drop cs)]
    rw [show (n + 1) * cs = cs + n * cs by ring, List.take_add]

/-- C2: for every positive chunk size and every byte string, `chunk_image`
produces `⌈len/chunk_size⌉` chunks (`(len + cs - 1) / cs`, pinned down by
the two product inequalities), each chunk holds at most `chunk_size` bytes,
the empty input yields no chunks, and `reconstruct_image` of the chunk list
restores the byte string exactly. -/
theorem chunk_image_reconstruct_roundtrip (cs : Nat) (hcs : 0 < cs)
    (l : List Nat) (hl : ∀ b ∈ l, b < 256) :
    (chunk_image cs l).length = (l.length + cs - 1) / cs ∧
    l.length ≤ (chunk_image cs l).length * cs ∧
    (chunk_image cs l).length * cs < l.length + cs ∧
    (∀ ch ∈ chunk_image cs l, ch.size ≤ cs) ∧
    chunk_image cs [] = [] ∧
    reconstruct_image (chunk_image cs l) = l := by
  have hlen : (chunk_image cs l).length = (l.length + cs - 1) / cs := by
    simp [chunk_image]
  have hceil : l.length ≤ ((l.length + cs - 1) / cs) * cs := by
    rcases Nat.eq_zero_or_pos l.length with h0 | h0
    · simp [h0]
    · have h4 := Nat.div_add_mod' (l.length + cs - 1) cs
      have h3 : (l.length + cs - 1) % cs < cs := Nat.mod_lt _ hcs
      omega
  have hceil2 : ((l.length + cs - 1) / cs) * cs < l.length + cs := by
    have h5 := Nat.div_mul_le_self (l.length + cs - 1) cs
    omega
  refine ⟨hlen, by rw [hlen]; exact hceil, by rw [hlen]; exact hceil2, ?_, ?_, ?_⟩
  · intro ch hch
    simp only [chunk_image, List.mem_map, List.mem_range] at hch
    obtain ⟨i, _, rfl⟩ := hch
    simp
  · have : (cs - 1) / cs = 0 := Nat.div_eq_of_lt (by omega)
    simp [chunk_image, this]
  · have hpair : List.Pairwise (fun a b : Chunk => a.index ≤ b.index)
        (chunk_image cs l) := by
      unfold chunk_image
      rw [List.pairwise_map]
      refine (List.pairwise_lt_range _).imp ?_
      intro a b hab
      show (a : Int) ≤ (b : Int)
      exact_mod_cast Nat.le_of_lt hab
    unfold reconstruct_image
    rw [sortByIndex_of_pairwise hpair]
    unfold chunk_image
    rw [List.map_map]
    have hmap : List.map ((fun c : Chunk => b64decode c.b64) ∘ fun i =>
        let chunk := (l.drop (i * cs)).take cs
        ({ index := (i : Int), b64 := b64encode chunk, size := chunk.length } : Chunk))
        (List.range ((l.length + cs - 1) / cs)) =
        List.map (fun i => (l.drop (i * cs)).take cs)
        (List.range ((l.length + cs - 1) / cs)) := by
      refine List.map_congr_left fun i _ => ?_
      exact b64decode_encode _ (fun x hx =>
        hl x (List.mem_of_mem_drop (List.mem_of_mem_take hx)))
    rw [hmap, flatten_slices]
    exact List.take_of_length_le hceil

/-- Witness for C2 at chunk size 2 and the byte string `[10, 20, 30]`:
two chunks, round-trip identity. -/
theorem chunk_image_reconstruct_roundtrip_witness :
    (chunk_image 2 [10, 20, 30]).length = 2 ∧
    reconstruct_image (chunk_image 2 [10, 20, 30]) = [10, 20, 30] :=
  ⟨(chunk_image_reconstruct_roundtrip 2 (by norm_num) [10, 20, 30]
      (by decide)).1,
   (chunk_image_reconstruct_roundtrip 2 (by norm_num) [10, 20, 30]
      (by decide)).2.2.2.2.2⟩

/-- C7 counterexample: a chunk list whose indices are 0 and 2 — index 1 of
the contiguous 0..n-1 range is missing — on which `reconstruct_image`
returns a byte sequence (the concatenation of what is present) instead of
failing: no `IntegrityError` exists anywhere in the code. -/
theorem reconstruct_image_gap_counterexample :
    reconstruct_image
      [{ index := 0, b64 := b64encode [1, 2], size := 2 },
       { index := 2, b64 := b64encode [5, 6], size := 2 }] = [1, 2, 5, 6] := by
  decide

/-- C7 (amended): `reconstruct_image` is total and never signals missing
indices: for every index-sorted chunk list — gaps included — it returns the
concatenation of the decoded payloads in the given order. -/
theorem reconstruct_image_total_no_integrity_check (chunks : List Chunk)
    (hs : List.Pairwise (fun a b => a.index ≤ b.index) chunks) :
    reconstruct_image chunks =
      (chunks.map (fun c => b64decode c.b64)).flatten := by
  unfold reconstruct_image
  rw [sortByIndex_of_pairwise hs]

/-- Witness for C7's amended theorem on a gapped two-chunk list. -/
theorem reconstruct_image_total_no_integrity_check_witness :
    reconstruct_image
      [{ index := 0, b64 := b64encode [7], size := 1 },
       { index := 3, b64 := b64encode [9], size := 1 }] =
      (([{ index := 0, b64 := b64encode [7], size := 1 },
          { index := 3, b64 := b64encode [9], size := 1 }] : List Chunk).map
        (fun c => b64decode c.b64)).flatten :=
  reconstruct_image_total_no_integrity_check _ (by decide)

/-! ## Pipeline data model (`lib/verification_pipeline.py`, `lib/vlm_verifier.py`)

Python exceptions raised (or forwarded) by the orchestrator are modelled as
an explicit error type returned through `Except`; JSON values returned by
the assessor as a small dynamic `Json` type; the Pinecone collections as
association lists from vector id to the typed metadata the pipeline stores
there; and the external collaborators (CLIP embedding, `imagehash.phash`,
thumbnailing, haversine trigonometry, `compute_image_similarity`'s
skimage/cv2 internals, the manipulation CNN, the reference-pair query and
the VLM call) as oracle functions carried in an `Env` record. -/

/-- Python exceptions surfaced by the pipeline: the `ValueError("... not
found")` raises of `verify_proof`, `KeyError`/`TypeError` from subscripting
the assessor's JSON, and the `AttributeError` from taking `.metadata` of a
`None` fetch result. -/
inductive PyError where
  | notFound (msg : String)
  | keyError (key : String)
  | typeError
  | attributeError
deriving Repr, DecidableEq

/-- A parsed JSON value (result of `json.loads` on the assessor reply). -/
inductive Json where
  | null
  | bool (b : Bool)
  | num (q : ℚ)
  | str (s : String)
  | arr (elems : List Json)
  | obj (fields : List (String × Json))

instance : Inhabited Json := ⟨Json.null⟩

/-- Python `value[key]` on a parsed JSON value: for an object, the field or
`KeyError`; for anything else, `TypeError`. -/
def Json.getItem (j : Json) (key : String) : Except PyError Json :=
  match j with
  | .obj fields =>
    match fields.lookup key with
    | some v => .ok v
    | none => .error (.keyError key)
  | _ => .error .typeError

/-- Python numeric coercion as applied by `value / 10.0` in
`compute_composite_score`: numbers pass through, booleans count as 0/1,
anything else is a `TypeError`. -/
def Json.asNumber (j : Json) : Except PyError ℚ :=
  match j with
  | .num q => .ok q
  | .bool b => .ok (if b then 1 else 0)
  | _ => .error .typeError

/-- Metadata stored on a `proofs` vector by `ingest_proof` (lines
170–183). -/
structure ProofMeta where
  complaint_id : String
  worker_id : String
  ts_iso : String
  lat : ℚ
  lon : ℚ
  pHash : String
  chunks : List String
  thumb_chunk : String
  recycled_flag : Bool
  size_bytes : Nat
deriving Repr, DecidableEq, Inhabited

/-- Metadata stored on a `complaints_before` vector by `ingest_complaint`
(lines 77–87). -/
structure ComplaintMeta where
  complaint_id : String
  media_id : String
  ts_iso : String
  lat : ℚ
  lon : ℚ
  pHash : String
  chunks : List String
  thumb_chunk : String
  issue_type : String
deriving Repr, DecidableEq, Inhabited

/-- Metadata stored on a `chunks` vector (chunk index `-1` marks a
thumbnail). -/
structure ChunkMeta where
  chunk_index : Int
  bytes_len : Nat
  b64 : List Char
deriving Repr, DecidableEq, Inhabited

/-- Metadata stored on a `phash_index` vector (lines 197–220). -/
structure PhashMeta where
  phash : String
  proof_ids : List String
  last_seen : String
deriving Repr, DecidableEq, Inhabited

/-- Audit bookkeeping written at the end of `verify_proof` (lines 399–413);
the base64 of `str(report)` is treated as opaque and not modelled. -/
structure AuditMeta where
  proof_id : String
  complaint_id : String
  decision : String
deriving Repr, DecidableEq, Inhabited

/-- A fetched `proofs` vector: values, metadata, and an optional relevance
score (Pinecone fetch results carry none, making the
`hasattr(proof_vector, 'score')` check of line 274 fall back to 0.5). -/
structure FetchedProof where
  values : List ℚ
  score : Option ℚ
  metadata : ProofMeta
deriving Repr, DecidableEq, Inhabited

/-- Return value of `compute_image_similarity`. -/
structure SimMetrics where
  ssim : ℚ
  pixel_diff_norm : ℚ
  visual_change : Bool
deriving Repr, DecidableEq, Inhabited

/-- The metadata record handed to the assessor (lines 315–326). -/
structure VlmInput where
  complaint_ts : String
  proof_ts : String
  distance_m : ℚ
  embedding_sim : ℚ
  ssim : ℚ
  pixel_diff_norm : ℚ
  manip_prob : ℚ
  recycled_flag : Bool
  worker_present : Bool
  issue_type : String
deriving Repr, DecidableEq, Inhabited

/-- Outcome of the assessor call as seen by `verify_with_vlm` after
markdown stripping and `json.loads`: parsed JSON, a
`json.JSONDecodeError`, or any other exception from the API call. -/
inductive VlmOutcome where
  | parsed (j : Json)
  | jsonError
  | apiError

/-- The Pinecone collections the pipeline reads and writes, as association
lists keyed by vector id (upserts replace in place or append). -/
structure Store where
  proofs : List (String × FetchedProof)
  complaints_before : List (String × ComplaintMeta)
  chunks : List (String × ChunkMeta)
  phash_index : List (String × PhashMeta)
  audits : List (String × AuditMeta)
deriving Inhabited

/-- External collaborators, as oracle functions.  `phash` is
`imagehash.phash` through PIL (`none` = exception), `ref_notes` the
`verified_reference_pairs` top-3 query (`none` = exception swallowed by the
bare `except`), `vlm` the GPT-4V call, `audit_uuid` the generated audit
id. -/
structure Env where
  clip_embedding : List Nat → List ℚ
  phash : List Nat → Option String
  thumbnail : List Nat → List Nat
  haversine : ℚ → ℚ → ℚ → ℚ → ℚ
  image_similarity : List Nat → List Nat → SimMetrics
  detect_manipulation : List Nat → ℚ
  ref_notes : Option (List String)
  vlm : List Char → List Char → VlmInput → List String → VlmOutcome
  audit_uuid : String

/-- `ImageProcessor.compute_phash` (image_processor.py lines 14–22): the
perceptual hash of the image, or `""` when PIL/imagehash raise. -/
def compute_phash (env : Env) (image_bytes : List Nat) : String :=
  match env.phash image_bytes with
  | some h => h
  | none => ""

/-- Pinecone upsert over an association list: replace the entry in place
when the key exists, append otherwise. -/
def upsertAssoc {α : Type} (l : List (String × α)) (k : String) (v : α) :
    List (String × α) :=
  if l.any (fun p => p.1 == k) then
    l.map (fun p => if p.1 == k then (k, v) else p)
  else l ++ [(k, v)]

/-- The fixed record returned when `json.loads` raises
(vlm_verifier.py lines 124–139). -/
def default_vlm_json_error : Json := Json.obj
  [("visual_change_detected", Json.bool false),
   ("change_description", Json.str "Error parsing VLM response"),
   ("improvement_visible", Json.bool false),
   ("work_completion_score", Json.num 1),
   ("issues_detected", Json.arr [Json.str "VLM processing error"]),
   ("meets_standards", Json.bool false),
   ("manipulation_detected", Json.bool false),
   ("fraud_risk_score", Json.num (1/2)),
   ("recommendation", Json.str "human_review"),
   ("explanation", Json.str "Failed to parse VLM output, requires manual review")]

/-- The fixed record returned when the API call itself raises
(vlm_verifier.py lines 140–153); the interpolated exception text in
`explanation` is modelled by a fixed string. -/
def default_vlm_service_error : Json := Json.obj
  [("visual_change_detected", Json.bool false),
   ("change_description", Json.str "VLM error"),
   ("improvement_visible", Json.bool false),
   ("work_completion_score", Json.num 1),
   ("issues_detected", Json.arr [Json.str "VLM service error"]),
   ("meets_standards", Json.bool false),
   ("manipulation_detected", Json.bool false),
   ("fraud_risk_score", Json.num (1/2)),
   ("recommendation", Json.str "human_review"),
   ("explanation", Json.str "VLM service error")]

/-- `VLMVerifier.verify_with_vlm` (vlm_verifier.py lines 90–153): return
the parsed JSON as-is on success, and one of the two fixed default records
when parsing or the call fails.  The function itself never raises. -/
def verify_with_vlm (env : Env) (before_image_b64 after_image_b64 : List Char)
    (metadata : VlmInput) (few_shot_examples : List String) : Json :=
  match env.vlm before_image_b64 after_image_b64 metadata few_shot_examples with
  | .parsed j => j
  | .jsonError => default_vlm_json_error
  | .apiError => default_vlm_service_error

/-! ## Verification orchestrator (`lib/verification_pipeline.py`) -/

/-- `location_validation` section of the report (lines 360–364). -/
structure LocationValidation where
  distance_from_complaint_meters : ℚ
  within_acceptable_radius : Bool
  validation_passed : Bool
deriving Repr, DecidableEq, Inhabited

/-- `before_after_comparison` section (lines 366–370); values come straight
from the assessor's JSON. -/
structure BeforeAfterComparison where
  visual_change_detected : Json
  change_description : Json
  improvement_visible : Json
deriving Inhabited

/-- `quality_assessment` section (lines 371–375). -/
structure QualityAssessment where
  work_completion_score : Json
  issues_detected : Json
  meets_standards : Json
deriving Inhabited

/-- `authenticity_check` section (lines 376–381). -/
structure AuthenticityCheck where
  is_original_photo : Bool
  recycled_photo_detected : Bool
  manipulation_detected : Bool
  fraud_risk_score : Json
deriving Inhabited

/-- `image_analysis` section (lines 365–382). -/
structure ImageAnalysis where
  before_after_comparison : BeforeAfterComparison
  quality_assessment : QualityAssessment
  authenticity_check : AuthenticityCheck
deriving Inhabited

/-- `scoring` section (lines 388–391). -/
structure ReportScoring where
  composite_score : ℚ
  components : ScoreComponents
deriving Repr, DecidableEq, Inhabited

/-- The `VerificationReport` dict assembled at lines 355–397.  The
wall-clock fields (`verification_timestamp`, `processing_time_ms`), the
constant `timeline_validation` section and the rendered `explanation`
string are outside the shallow embedding and omitted. -/
structure Report where
  proof_id : String
  complaint_id : String
  verification_status : String
  location_validation : LocationValidation
  image_analysis : ImageAnalysis
  scoring : ReportScoring
  vlm_explanation : Json
  recommendation : Json
  flagged_for_review : Bool
deriving Inhabited

/-- A `verify_proof` run, instrumented with what the orchestrator fed to
its collaborators: whether the manipulation estimator was invoked, the
metadata record handed to the assessor, and the signal set handed to the
scoring engine. -/
structure RunResult where
  report : Report
  store : Store
  manip_invoked : Bool
  vlm_input : VlmInput
  signals : Signals
deriving Inhabited

/-- `VerificationPipeline._reconstruct_full_image` (lines 423–434): fetch
each chunk id, silently skipping ids that fail to fetch, and reconstruct.
(The source's chunk dicts carry no `'size'` key; `reconstruct_image` never
reads it, and the stored byte length is used here.) -/
def reconstruct_full_image (store : Store) (chunk_ids : List String) : List Nat :=
  reconstruct_image (chunk_ids.filterMap (fun chunk_id =>
    (store.chunks.lookup chunk_id).map (fun m =>
      { index := m.chunk_index, b64 := m.b64, size := m.bytes_len })))

/-- The complaint lookup of lines 248–254: top-1 `complaints_before` match
under the stored `complaint_id` filter, in stored order. -/
def complaintMatches (store : Store) (complaint_id : String) : List ComplaintMeta :=
  ((store.complaints_before.map Prod.snd).filter
    (fun m => m.complaint_id == complaint_id)).take 1

/-- `VerificationPipeline.verify_proof` (lines 234–421), instrumented.
Each Python raise maps to `Except.error`: the two `ValueError` raises of
lines 242 and 257, the `AttributeError` from `.metadata` on a `None`
thumbnail fetch (lines 263–267), and `KeyError`/`TypeError` from
subscripting the assessor's JSON (line 340 and the report build).  The
outer `try/except` of lines 236/419 logs and re-raises, so every error
propagates. -/
def verify_proof_run (env : Env) (store : Store) (proof_id : String) :
    Except PyError RunResult :=
  match store.proofs.lookup ("proof::" ++ proof_id) with
  | none => .error (.notFound ("Proof " ++ proof_id ++ " not found"))
  | some proof_vector =>
    let proof_meta := proof_vector.metadata
    let complaint_id := proof_meta.complaint_id
    match complaintMatches store complaint_id with
    | [] => .error (.notFound ("Complaint " ++ complaint_id ++ " not found"))
    | complaint_meta :: _ =>
      match store.chunks.lookup proof_meta.thumb_chunk with
      | none => .error .attributeError
      | some proof_thumb_chunk =>
        match store.chunks.lookup complaint_meta.thumb_chunk with
        | none => .error .attributeError
        | some complaint_thumb_chunk =>
          let proof_thumb_b64 := proof_thumb_chunk.b64
          let complaint_thumb_b64 := complaint_thumb_chunk.b64
          let proof_thumb_bytes := b64decode proof_thumb_b64
          let complaint_thumb_bytes := b64decode complaint_thumb_b64
          let embedding_sim : ℚ := 1 -
            (match proof_vector.score with
             | some s => s
             | none => 1/2)
          let similarity_metrics :=
            env.image_similarity complaint_thumb_bytes proof_thumb_bytes
          let distance_m := env.haversine complaint_meta.lat complaint_meta.lon
            proof_meta.lat proof_meta.lon
          let recycled_flag := proof_meta.recycled_flag
          let manip_pair : ℚ × Bool :=
            if recycled_flag = true ∨ distance_m > 50 then
              (env.detect_manipulation (reconstruct_full_image store proof_meta.chunks),
               true)
            else (0, false)
          let few_shot_examples :=
            match env.ref_notes with
            | some notes => notes.take 3
            | none => []
          let vlm_metadata : VlmInput :=
            { complaint_ts := complaint_meta.ts_iso
              proof_ts := proof_meta.ts_iso
              distance_m := distance_m
              embedding_sim := embedding_sim
              ssim := similarity_metrics.ssim
              pixel_diff_norm := similarity_metrics.pixel_diff_norm
              manip_prob := manip_pair.1
              recycled_flag := recycled_flag
              worker_present := true
              issue_type := complaint_meta.issue_type }
          let vlm_result := verify_with_vlm env complaint_thumb_b64
            proof_thumb_b64 vlm_metadata few_shot_examples
          match (vlm_result.getItem "work_completion_score").bind Json.asNumber with
          | .error e => .error e
          | .ok wcs =>
            let scoring_signals : Signals :=
              { embedding_sim := embedding_sim
                ssim := similarity_metrics.ssim
                pixel_diff_norm := similarity_metrics.pixel_diff_norm
                vlm_work_completion_score := wcs
                distance_m := distance_m
                manipulation_probability := manip_pair.1
                recycled_flag := recycled_flag
                worker_present := true }
            let score_data := compute_composite_score scoring_signals
            let decision := make_decision score_data.composite_score scoring_signals
            match vlm_result.getItem "visual_change_detected" with
            | .error e => .error e
            | .ok vcd =>
              match vlm_result.getItem "change_description" with
              | .error e => .error e
              | .ok cd =>
                match vlm_result.getItem "improvement_visible" with
                | .error e => .error e
                | .ok iv =>
                  match vlm_result.getItem "issues_detected" with
                  | .error e => .error e
                  | .ok issues =>
                    match vlm_result.getItem "meets_standards" with
                    | .error e => .error e
                    | .ok ms =>
                      match vlm_result.getItem "fraud_risk_score" with
                      | .error e => .error e
                      | .ok frs =>
                        match vlm_result.getItem "explanation" with
                        | .error e => .error e
                        | .ok vexp =>
                          match vlm_result.getItem "recommendation" with
                          | .error e => .error e
                          | .ok rcm =>
                            let report : Report :=
                              { proof_id := proof_id
                                complaint_id := complaint_id
                                verification_status := decision
                                location_validation :=
                                  { distance_from_complaint_meters := distance_m
                                    within_acceptable_radius := distance_m ≤ 50
                                    validation_passed := distance_m ≤ 50 }
                                image_analysis :=
                                  { before_after_comparison :=
                                      { visual_change_detected := vcd
                                        change_description := cd
                                        improvement_visible := iv }
                                    quality_assessment :=
                                      { work_completion_score := Json.num wcs
                                        issues_detected := issues
                                        meets_standards := ms }
                                    authenticity_check :=
                                      { is_original_photo := !recycled_flag
                                        recycled_photo_detected := recycled_flag
                                        manipulation_detected := manip_pair.1 ≥ 85/100
                                        fraud_risk_score := frs } }
                                scoring :=
                                  { composite_score := score_data.composite_score
                                    components := score_data.components }
                                vlm_explanation := vexp
                                recommendation := rcm
                                flagged_for_review := decision == "QUESTIONABLE" }
                            let audit_meta : AuditMeta :=
                              { proof_id := proof_id
                                complaint_id := complaint_id
                                decision := decision }
                            let audit_key := "audit::" ++ env.audit_uuid
                            let new_audits :=
                              upsertAssoc store.audits audit_key audit_meta
                            let store' := { store with audits := new_audits }
                            .ok { report := report
                                  store := store'
                                  manip_invoked := manip_pair.2
                                  vlm_input := vlm_metadata
                                  signals := scoring_signals }

/-- Return value of `ingest_proof` (lines 224–228). -/
structure IngestResult where
  proof_id : String
  status : String
  recycled_flag : Bool
deriving Repr, DecidableEq, Inhabited

/-- `VerificationPipeline.ingest_proof` (lines 104–232): chunk and store
the image and thumbnail, scan the phash index (a top-100 probe, modelled
as the first 100 stored entries) for a duplicate fingerprint, store the
proof record with the resulting `recycled_flag`, then update the phash
index: append to the entry whose key is exactly `phash::<hash>` when it
exists, create it otherwise. -/
def ingest_proof (env : Env) (store : Store) (proof_id complaint_id worker_id : String)
    (image_bytes : List Nat) (lat lon : ℚ) (ts_iso : String) :
    Store × IngestResult :=
  let embedding := env.clip_embedding image_bytes
  let phash := compute_phash env image_bytes
  let thumbnail := env.thumbnail image_bytes
  let chunks := chunk_image default_chunk_size image_bytes
  let chunk_ids := chunks.map (fun ch =>
    "proof::" ++ proof_id ++ "#chunk::" ++ toString ch.index)
  let store1 := chunks.foldl (fun st ch =>
    let ch_key := "proof::" ++ proof_id ++ "#chunk::" ++ toString ch.index
    let ch_meta : ChunkMeta :=
      { chunk_index := ch.index, bytes_len := ch.size, b64 := ch.b64 }
    { st with chunks := upsertAssoc st.chunks ch_key ch_meta }) store
  let thumb_chunk_id := "proof::" ++ proof_id ++ "#thumb"
  let thumb_meta : ChunkMeta :=
    { chunk_index := -1, bytes_len := thumbnail.length, b64 := b64encode thumbnail }
  let store2 := { store1 with chunks := upsertAssoc store1.chunks thumb_chunk_id thumb_meta }
  let phash_results := store2.phash_index.take 100
  let recycled_flag := phash_results.any (fun p =>
    is_duplicate (phash.toList) (p.2.phash.toList))
  let proof_metadata : ProofMeta :=
    { complaint_id := complaint_id
      worker_id := worker_id
      ts_iso := ts_iso
      lat := lat
      lon := lon
      pHash := phash
      chunks := chunk_ids
      thumb_chunk := thumb_chunk_id
      recycled_flag := recycled_flag
      size_bytes := image_bytes.length }
  let proof_record : FetchedProof :=
    { values := embedding, score := none, metadata := proof_metadata }
  let store3 :=
    { store2 with proofs := upsertAssoc store2.proofs ("proof::" ++ proof_id) proof_record }
  let phash_vector_id := "phash::" ++ phash
  let new_phash_meta : PhashMeta :=
    match store3.phash_index.lookup phash_vector_id with
    | some existing =>
      { phash := phash
        proof_ids := existing.proof_ids ++ [proof_id]
        last_seen := ts_iso }
    | none =>
      { phash := phash
        proof_ids := [proof_id]
        last_seen := ts_iso }
  let new_phash_index := upsertAssoc store3.phash_index phash_vector_id new_phash_meta
  let store4 := { store3 with phash_index := new_phash_index }
  (store4, { proof_id := proof_id, status := "ingested", recycled_flag := recycled_flag })

/-! ### Store lemmas -/

lemma lookup_cons_self {α : Type} (k : String) (v : α) (l : List (String × α)) :
    ((k, v) :: l).lookup k = some v := by
  simp [List.lookup]

lemma lookup_cons_ne {α : Type} (p1 k : String) (p2 : α) (l : List (String × α))
    (h : ¬ p1 = k) : ((p1, p2) :: l).lookup k = l.lookup k := by
  have hk : (k == p1) = false := beq_eq_false_iff_ne.mpr (fun e => h e.symm)
  simp [List.lookup, hk]

lemma lookup_upsertAssoc_self {α : Type} : ∀ (l : List (String × α)) (k : String) (v : α),
    (upsertAssoc l k v).lookup k = some v
  | [], k, v => by simp [upsertAssoc, List.lookup]
  | ⟨p1, p2⟩ :: ps, k, v => by
    have ih := lookup_upsertAssoc_self ps k v
    by_cases hp : p1 = k
    · subst hp
      unfold upsertAssoc
      rw [if_pos (by simp)]
      simp only [List.map_cons]
      rw [if_pos (show ((p1, p2).1 == p1) = true by simp)]
      exact lookup_cons_self _ _ _
    · unfold upsertAssoc
      by_cases hs : ps.any (fun q => q.1 == k)
      · rw [if_pos (by simp [List.any_cons, hs])]
        unfold upsertAssoc at ih
        rw [if_pos hs] at ih
        simp only [List.map_cons]
        rw [if_neg (by simpa using hp), lookup_cons_ne _ _ _ _ hp]
        exact ih
      · rw [if_neg (by simp [List.any_cons, hs, hp])]
        unfold upsertAssoc at ih
        rw [if_neg hs] at ih
        rw [List.cons_append, lookup_cons_ne _ _ _ _ hp]
        exact ih

lemma ingest_foldl_phash_index (pid : String) :
    ∀ (l : List Chunk) (st : Store),
      (l.foldl (fun st ch =>
        { st with
            chunks :=
              upsertAssoc st.chunks ("proof::" ++ pid ++ "#chunk::" ++ toString ch.index)
                { chunk_index := ch.index, bytes_len := ch.size, b64 := ch.b64 } })
        st).phash_index = st.phash_index
  | [], _ => rfl
  | c :: cs, st => by
    rw [List.foldl_cons]
    exact ingest_foldl_phash_index pid cs _

/-- The phash-index state after `ingest_proof`: a single upsert at the key
`phash::<hash>`, appending to the entry when that exact key exists. -/
lemma ingest_proof_phash_index_eq (env : Env) (store : Store)
    (pid cid wid : String) (img : List Nat) (lat lon : ℚ) (ts : String) :
    (ingest_proof env store pid cid wid img lat lon ts).1.phash_index =
      upsertAssoc store.phash_index ("phash::" ++ compute_phash env img)
        (match store.phash_index.lookup ("phash::" ++ compute_phash env img) with
         | some existing =>
           { phash := compute_phash env img
             proof_ids := existing.proof_ids ++ [pid]
             last_seen := ts }
         | none =>
           { phash := compute_phash env img
             proof_ids := [pid]
             last_seen := ts }) := by
  unfold ingest_proof
  dsimp only
  rw [ingest_foldl_phash_index]

/-! ### Claim C9 -/

/-- C9 (amended): on proof ingestion, when the phash index already holds an
entry keyed by exactly `phash::<new hash>`, the proof id is appended to
that entry's list and `last_seen` is advanced to the ingestion timestamp; a
new key is created exactly when no entry with that exact key exists —
entries that are merely within the duplicate-similarity threshold set
`recycled_flag` but do not prevent the new key. -/
theorem ingest_proof_phash_index_update (env : Env) (store : Store)
    (pid cid wid : String) (img : List Nat) (lat lon : ℚ) (ts : String) :
    (∀ m, store.phash_index.lookup ("phash::" ++ compute_phash env img) = some m →
      (ingest_proof env store pid cid wid img lat lon ts).1.phash_index.lookup
          ("phash::" ++ compute_phash env img) =
        some { phash := compute_phash env img
               proof_ids := m.proof_ids ++ [pid]
               last_seen := ts }) ∧
    (store.phash_index.lookup ("phash::" ++ compute_phash env img) = none →
      (ingest_proof env store pid cid wid img lat lon ts).1.phash_index.lookup
          ("phash::" ++ compute_phash env img) =
        some { phash := compute_phash env img
               proof_ids := [pid]
               last_seen := ts }) := by
  constructor
  · intro m hm
    rw [ingest_proof_phash_index_eq, hm]
    exact lookup_upsertAssoc_self _ _ _
  · intro hm
    rw [ingest_proof_phash_index_eq, hm]
    exact lookup_upsertAssoc_self _ _ _

/-! ### Concrete environments and stores for concrete runs -/

/-- A VLM reply with every expected field. -/
def goodVlmJson : Json := Json.obj
  [("visual_change_detected", Json.bool true),
   ("change_description", Json.str "cleaned"),
   ("improvement_visible", Json.bool true),
   ("work_completion_score", Json.num 8),
   ("issues_detected", Json.arr []),
   ("meets_standards", Json.bool true),
   ("manipulation_detected", Json.bool false),
   ("fraud_risk_score", Json.num (1/10)),
   ("recommendation", Json.str "approve"),
   ("explanation", Json.str "ok")]

/-- Deterministic collaborators for a nearby, well-behaved proof. -/
def wEnv : Env :=
  { clip_embedding := fun _ => []
    phash := fun _ => none
    thumbnail := fun _ => []
    haversine := fun _ _ _ _ => 10
    image_similarity := fun _ _ => { ssim := 1/2, pixel_diff_norm := 1/4, visual_change := true }
    detect_manipulation := fun _ => 0
    ref_notes := some []
    vlm := fun _ _ _ _ => VlmOutcome.parsed goodVlmJson
    audit_uuid := "a1" }

/-- One stored proof and its complaint, thumbnails present. -/
def wStore : Store :=
  { proofs := [("proof::p1",
      { values := []
        score := none
        metadata :=
          { complaint_id := "c1", worker_id := "w1", ts_iso := "t1", lat := 1, lon := 2,
            pHash := "", chunks := [], thumb_chunk := "proof::p1#thumb",
            recycled_flag := false, size_bytes := 0 } })]
    complaints_before := [("complaint::c1::media::m1",
      { complaint_id := "c1", media_id := "m1", ts_iso := "t0", lat := 1, lon := 2,
        pHash := "", chunks := [], thumb_chunk := "complaint::c1#thumb",
        issue_type := "general" })]
    chunks := [("proof::p1#thumb", { chunk_index := -1, bytes_len := 0, b64 := [] }),
               ("complaint::c1#thumb", { chunk_index := -1, bytes_len := 0, b64 := [] })]
    phash_index := []
    audits := [] }

/-- `wEnv` with an assessor that replies with valid but wrongly-shaped
JSON (`{}`). -/
def emptyJsonEnv : Env := { wEnv with vlm := fun _ _ _ _ => VlmOutcome.parsed (Json.obj []) }

/-- `wEnv` with an assessor whose reply fails `json.loads`. -/
def jsonErrEnv : Env := { wEnv with vlm := fun _ _ _ _ => VlmOutcome.jsonError }

/-- A store with no records at all. -/
def emptyStore : Store :=
  { proofs := [], complaints_before := [], chunks := [], phash_index := [], audits := [] }

/-- Collaborators whose perceptual hash collides (within threshold) with
the stored index entry of `dupStore`. -/
def dupEnv : Env :=
  { clip_embedding := fun _ => []
    phash := fun _ => some "0000000000000000"
    thumbnail := fun _ => []
    haversine := fun _ _ _ _ => 0
    image_similarity := fun _ _ => { ssim := 0, pixel_diff_norm := 1, visual_change := true }
    detect_manipulation := fun _ => 0
    ref_notes := none
    vlm := fun _ _ _ _ => VlmOutcome.jsonError
    audit_uuid := "a" }

/-- A phash index holding one entry at Hamming distance 6 from
`dupEnv`'s hash — within the 0.90 duplicate threshold, but a different
key. -/
def dupStore : Store :=
  { proofs := []
    complaints_before := []
    chunks := []
    phash_index := [("phash::000000000000003f",
      { phash := "000000000000003f", proof_ids := ["p0"], last_seen := "t0" })]
    audits := [] }

/-- A phash index holding an entry whose key is exactly `dupEnv`'s
hash. -/
def dupStore2 : Store :=
  { proofs := []
    complaints_before := []
    chunks := []
    phash_index := [("phash::0000000000000000",
      { phash := "0000000000000000", proof_ids := ["p0"], last_seen := "t0" })]
    audits := [] }

lemma hamming_six :
    hamming_distance ("0000000000000000".toList) ("000000000000003f".toList) = 6 := by
  decide

lemma is_dup_six :
    is_duplicate ("0000000000000000".toList) ("000000000000003f".toList) (9/10) = true := by
  rw [is_duplicate_eq, hamming_six, decide_eq_true_iff]
  norm_num

/-- C9 counterexample: the index holds an entry (`phash::000000000000003f`)
within the duplicate-similarity threshold of the new proof's fingerprint
(`0000000000000000`, Hamming distance 6, so `recycled_flag` comes out
true), yet since no entry has exactly the new hash as its key,
`ingest_proof` still creates a fresh index key for it — contradicting "a
new index key is created only when no existing entry is within the
duplicate-similarity threshold". -/
theorem ingest_proof_similar_hash_new_key_counterexample :
    is_duplicate ("0000000000000000".toList) ("000000000000003f".toList) (9/10) = true ∧
    (ingest_proof dupEnv dupStore "p2" "c1" "w1" [] 0 0 "t2").2.recycled_flag = true ∧
    dupStore.phash_index.lookup ("phash::" ++ "0000000000000000") = none ∧
    (ingest_proof dupEnv dupStore "p2" "c1" "w1" [] 0 0 "t2").1.phash_index.lookup
        ("phash::" ++ "0000000000000000") =
      some { phash := "0000000000000000", proof_ids := ["p2"], last_seen := "t2" } := by
  refine ⟨is_dup_six, ?_, rfl, ?_⟩
  · show (is_duplicate ("0000000000000000".toList) ("000000000000003f".toList) (9/10)
      || false) = true
    rw [is_dup_six]
    rfl
  · have hk : compute_phash dupEnv [] = "0000000000000000" := rfl
    rw [ingest_proof_phash_index_eq, hk]
    have h0 : dupStore.phash_index.lookup ("phash::" ++ "0000000000000000") = none := rfl
    rw [h0]
    exact lookup_upsertAssoc_self _ _ _

/-- Witness for C9's amended theorem: an exact-key match appends the new
proof id and advances `last_seen`. -/
theorem ingest_proof_phash_index_update_witness :
    dupStore2.phash_index.lookup ("phash::" ++ compute_phash dupEnv []) =
      some { phash := "0000000000000000", proof_ids := ["p0"], last_seen := "t0" } ∧
    (ingest_proof dupEnv dupStore2 "p2" "c1" "w1" [] 0 0 "t2").1.phash_index.lookup
        ("phash::" ++ compute_phash dupEnv []) =
      some { phash := compute_phash dupEnv []
             proof_ids := ["p0"] ++ ["p2"]
             last_seen := "t2" } :=
  ⟨rfl, (ingest_proof_phash_index_update dupEnv dupStore2 "p2" "c1" "w1" [] 0 0 "t2").1
      { phash := "0000000000000000", proof_ids := ["p0"], last_seen := "t0" } rfl⟩

/-! ### Claim C5 -/

/-- C5 counterexample: when the assessor returns `{}` — valid JSON that
"cannot be parsed as the expected structure" — `verify_with_vlm` returns it
unchanged instead of the conservative default, and `verify_proof` then
raises a `KeyError` on `'work_completion_score'` past the orchestrator
boundary instead of degrading. -/
theorem verify_with_vlm_wrong_shape_counterexample :
    verify_with_vlm emptyJsonEnv [] [] default [] = Json.obj [] ∧
    verify_proof_run emptyJsonEnv wStore "p1" =
      Except.error (PyError.keyError "work_completion_score") := by
  exact ⟨rfl, rfl⟩

/-- C5 (amended): when the assessor call fails or its reply is not
parseable as JSON, `verify_with_vlm` returns the fixed conservative
default record — `work_completion_score = 1`, `recommendation =
"human_review"` — and raises nothing (it is total); valid JSON of the
wrong shape, however, is passed through unchanged. -/
theorem verify_with_vlm_parse_failure_default (env : Env)
    (before after : List Char) (meta : VlmInput) (examples : List String) :
    (env.vlm before after meta examples = VlmOutcome.jsonError →
      verify_with_vlm env before after meta examples = default_vlm_json_error) ∧
    (env.vlm before after meta examples = VlmOutcome.apiError →
      verify_with_vlm env before after meta examples = default_vlm_service_error) ∧
    default_vlm_json_error.getItem "work_completion_score" = Except.ok (Json.num 1) ∧
    default_vlm_json_error.getItem "recommendation" = Except.ok (Json.str "human_review") ∧
    default_vlm_service_error.getItem "work_completion_score" = Except.ok (Json.num 1) ∧
    default_vlm_service_error.getItem "recommendation" =
      Except.ok (Json.str "human_review") := by
  refine ⟨fun h => ?_, fun h => ?_, rfl, rfl, rfl, rfl⟩
  · unfold verify_with_vlm
    rw [h]
  · unfold verify_with_vlm
    rw [h]

/-- Witness for C5's amended theorem: a JSON-decode failure yields the
conservative default. -/
theorem verify_with_vlm_parse_failure_default_witness :
    jsonErrEnv.vlm [] [] default [] = VlmOutcome.jsonError ∧
    verify_with_vlm jsonErrEnv [] [] default [] = default_vlm_json_error :=
  ⟨rfl, (verify_with_vlm_parse_failure_default jsonErrEnv [] [] default []).1 rfl⟩

/-! ### Claim C6 -/

/-- C6: `verify_proof` fails with the not-found error when the proof record
is absent, and when no complaint resolves for the proof's `complaint_id`;
in both cases the run yields no report and no verdict — the result is an
explicit error and never `Except.ok`. -/
theorem verify_proof_not_found (env : Env) (store : Store) (pid : String) :
    (store.proofs.lookup ("proof::" ++ pid) = none →
      verify_proof_run env store pid =
        Except.error (PyError.notFound ("Proof " ++ pid ++ " not found")) ∧
      ∀ r : RunResult, verify_proof_run env store pid ≠ Except.ok r) ∧
    (∀ fp, store.proofs.lookup ("proof::" ++ pid) = some fp →
      complaintMatches store fp.metadata.complaint_id = [] →
      verify_proof_run env store pid =
        Except.error (PyError.notFound
          ("Complaint " ++ fp.metadata.complaint_id ++ " not found")) ∧
      ∀ r : RunResult, verify_proof_run env store pid ≠ Except.ok r) := by
  constructor
  · intro h
    have he : verify_proof_run env store pid =
        Except.error (PyError.notFound ("Proof " ++ pid ++ " not found")) := by
      unfold verify_proof_run
      rw [h]
    exact ⟨he, fun r hr => by rw [he] at hr; exact Except.noConfusion hr⟩
  · intro fp hfp hcm
    have he : verify_proof_run env store pid =
        Except.error (PyError.notFound
          ("Complaint " ++ fp.metadata.complaint_id ++ " not found")) := by
      unfold verify_proof_run
      rw [hfp]
      dsimp only
      rw [hcm]
    exact ⟨he, fun r hr => by rw [he] at hr; exact Except.noConfusion hr⟩

/-- Witness for C6: on an empty store the run fails with the explicit
not-found error. -/
theorem verify_proof_not_found_witness :
    emptyStore.proofs.lookup ("proof::" ++ "p1") = none ∧
    verify_proof_run wEnv emptyStore "p1" =
      Except.error (PyError.notFound ("Proof " ++ "p1" ++ " not found")) :=
  ⟨rfl, ((verify_proof_not_found wEnv emptyStore "p1").1 rfl).1⟩

/-! ### Claim C4 -/

/-- C4: in every successful `verify_proof` run, the manipulation estimator
is invoked exactly when the stored `recycled_flag` is true or the computed
`distance_m` exceeds 50; when it is not invoked, the manipulation
probability fed to the scoring engine and to the assessor is exactly 0. -/
theorem verify_proof_manip_gate (env : Env) (store : Store) (pid : String)
    (r : RunResult) (h : verify_proof_run env store pid = Except.ok r) :
    r.manip_invoked = (r.signals.recycled_flag || decide (r.signals.distance_m > 50)) ∧
    (r.manip_invoked = false →
      r.signals.manipulation_probability = 0 ∧ r.vlm_input.manip_prob = 0) := by
  unfold verify_proof_run at h
  dsimp only at h
  repeat' split at h
  all_goals try exact Except.noConfusion h
  all_goals injection h with h
  all_goals subst h
  all_goals refine ⟨?_, ?_⟩
  all_goals dsimp only
  all_goals
    first
      | exact fun hx => Bool.noConfusion hx
      | exact fun _ => ⟨rfl, rfl⟩
      | (rename_i hc
         rcases hc with hc | hc <;> simp [hc])
      | (rename_i hc
         simp only [not_or, Bool.not_eq_true, not_lt] at hc
         obtain ⟨hc1, hc2⟩ := hc
         rw [hc1]
         simp [decide_eq_false (not_lt.mpr hc2)])

/-- The successful run of `wEnv`/`wStore` on proof `p1`. -/
def wRun : RunResult :=
  match verify_proof_run wEnv wStore "p1" with
  | .ok r => r
  | .error _ => default

/-- Witness for C4: the concrete run succeeds, and the theorem applies. -/
theorem verify_proof_manip_gate_witness :
    verify_proof_run wEnv wStore "p1" = Except.ok wRun ∧
    wRun.manip_invoked =
      (wRun.signals.recycled_flag || decide (wRun.signals.distance_m > 50)) :=
  ⟨rfl, (verify_proof_manip_gate wEnv wStore "p1" wRun rfl).1⟩

end DeCoded
